import Mathlib

/-!
Verification of the quota-and-scheduling core of the delulu news bot.

The Python source is shallowly embedded: timestamps become integer seconds,
SQLite rows become structures, the rate-limit table row for one actor becomes
an Option of that structure (none when no row exists), and the scheduled_posts
table becomes a list of rows. Code that swallows exceptions is modelled with
Except on the fallible input.
-/

/-- config.py: MAX_REQUESTS_PER_HOUR = 10. -/
def MAX_REQUESTS_PER_HOUR : Nat := 10

/-- config.py: MAX_REQUESTS_PER_DAY = 50. -/
def MAX_REQUESTS_PER_DAY : Nat := 50

/-- One row of the rate_limits table (database.py, table created at lines
74-82): per-user hourly and daily counters plus the two window-start
timestamps, in seconds. -/
structure RateLimitRow where
  hourly_count : Nat
  daily_count : Nat
  last_hour_reset : Int
  last_day_reset : Int
deriving DecidableEq

namespace Database

/-- database.py lines 256-269, Database.check_rate_limit: reads the row for
the user and returns the pair (hourly_ok, daily_ok). A missing row yields
(true, true). Note the comparison uses only the stored counts; there is no
elapsed-window computation here. -/
def check_rate_limit (row : Option RateLimitRow) : Bool × Bool :=
  match row with
  | none => (true, true)
  | some r =>
      (decide (r.hourly_count < MAX_REQUESTS_PER_HOUR),
       decide (r.daily_count < MAX_REQUESTS_PER_DAY))

/-- database.py lines 211-254, Database.update_rate_limit at time now. A
missing row is inserted with both counts 1; the DEFAULT CURRENT_TIMESTAMP of
the two reset columns is modelled as now. For an existing row, each window is
reset to count 1 and window start now exactly when now minus the stored reset
time strictly exceeds the window length (3600 s resp. 86400 s); otherwise the
count is incremented and the stored reset time kept. -/
def update_rate_limit (now : Int) (row : Option RateLimitRow) : RateLimitRow :=
  match row with
  | none => ⟨1, 1, now, now⟩
  | some current =>
      let hourly :=
        if now - current.last_hour_reset > 3600 then
          ((1 : Nat), now)
        else
          (current.hourly_count + 1, current.last_hour_reset)
      let daily :=
        if now - current.last_day_reset > 86400 then
          ((1 : Nat), now)
        else
          (current.daily_count + 1, current.last_day_reset)
      ⟨hourly.1, daily.1, hourly.2, daily.2⟩

end Database

namespace RateLimiter

/-- additional_modules.py lines 14-33, RateLimiter.check_rate_limit (the
non-exceptional path): read the stored row, deny if either stored count has
reached its limit, otherwise consume by running Database.update_rate_limit.
Returns the allowed flag together with the resulting stored row. -/
def check_rate_limit (now : Int) (row : Option RateLimitRow) :
    Bool × Option RateLimitRow :=
  let limits := Database.check_rate_limit row
  if !limits.1 then
    (false, row)
  else if !limits.2 then
    (false, row)
  else
    (true, some (Database.update_rate_limit now row))

/-- additional_modules.py lines 19-37: the whole body sits in a try block
whose except clause returns True (allow the request if an error occurs). The
fallible database read is modelled as an Except value. -/
def check_rate_limit_exc (now : Int)
    (fetch : Except String (Option RateLimitRow)) : Bool :=
  match fetch with
  | Except.error _ => true
  | Except.ok row => (check_rate_limit now row).1

/-- Sequential calls to RateLimiter.check_rate_limit at the given list of
times, threading the stored row; returns the list of allowed flags and the
final row. -/
def runCalls : List Int → Option RateLimitRow →
    List Bool × Option RateLimitRow
  | [], row => ([], row)
  | t :: ts, row =>
      let step := check_rate_limit t row
      let rest := runCalls ts step.2
      (step.1 :: rest.1, rest.2)

end RateLimiter

/-- The dict returned by RateLimiter.get_user_limits (additional_modules.py
lines 39-76): remaining request counts plus the two human-readable reset
strings. -/
structure UserLimits where
  hourly_remaining : Nat
  daily_remaining : Nat
  hourly_reset : String
  daily_reset : String
deriving DecidableEq

namespace RateLimiter

/-- additional_modules.py lines 39-76, RateLimiter.get_user_limits: a pure
read of the stored row. Python computes max(0, limit - count), which is Nat
truncated subtraction here; the reset strings render the seconds until window
start plus window length, floor-divided (python //) into minutes resp. hours.
No elapsed-window reset is applied to the counts and nothing is written
back. -/
def get_user_limits (now : Int) (row : Option RateLimitRow) : UserLimits :=
  match row with
  | none =>
      ⟨MAX_REQUESTS_PER_HOUR, MAX_REQUESTS_PER_DAY, "1 hour", "24 hours"⟩
  | some limits =>
      let hourly_remaining := MAX_REQUESTS_PER_HOUR - limits.hourly_count
      let daily_remaining := MAX_REQUESTS_PER_DAY - limits.daily_count
      let hour_reset_time := limits.last_hour_reset + 3600 - now
      let day_reset_time := limits.last_day_reset + 86400 - now
      ⟨hourly_remaining, daily_remaining,
        if hour_reset_time > 0 then
          toString (hour_reset_time / 60) ++ " minutes"
        else "Now",
        if day_reset_time > 0 then
          toString (day_reset_time / 3600) ++ " hours"
        else "Now"⟩

end RateLimiter

/-- One row of the scheduled_posts table (database.py lines 85-95): id,
content, scheduled time, status text, and the nullable posted_at and
message_id columns. -/
structure ScheduledPost where
  id : Nat
  content : String
  scheduled_time : Int
  status : String
  posted_at : Option Int
  message_id : Option Nat
deriving DecidableEq

/-- The ORDER BY scheduled_time ASC ordering used by the due-posts query. -/
def scheduledLE (p q : ScheduledPost) : Prop :=
  p.scheduled_time ≤ q.scheduled_time

instance : DecidableRel scheduledLE := fun p q =>
  inferInstanceAs (Decidable (p.scheduled_time ≤ q.scheduled_time))

instance : IsTotal ScheduledPost scheduledLE :=
  ⟨fun p q => le_total p.scheduled_time q.scheduled_time⟩

instance : IsTrans ScheduledPost scheduledLE :=
  ⟨fun _ _ _ h h2 => le_trans h h2⟩

namespace NewsScheduler

/-- scheduler_error.py lines 76-83, the due-posts query of auto_post_news:
SELECT rows WHERE status is pending AND scheduled_time at most now, ORDER BY
scheduled_time ASC, LIMIT 5. -/
def fetch_due_posts (now : Int) (posts : List ScheduledPost) :
    List ScheduledPost :=
  (List.insertionSort scheduledLE
      (posts.filter fun p =>
        p.status == "pending" && decide (p.scheduled_time ≤ now))).take 5

/-- scheduler_error.py lines 91-97, the success branch of auto_post_news:
UPDATE scheduled_posts SET status posted, posted_at now, message_id msgId
WHERE id = postId. The WHERE clause matches on id only, with no status
guard. -/
def mark_posted (now : Int) (msgId : Nat) (postId : Nat)
    (posts : List ScheduledPost) : List ScheduledPost :=
  posts.map fun p =>
    if p.id == postId then
      { p with status := "posted", posted_at := some now,
               message_id := some msgId }
    else p

/-- scheduler_error.py lines 224-244, NewsScheduler.cancel_scheduled_post:
UPDATE scheduled_posts SET status cancelled WHERE id = postId AND status is
pending, then report whether conn.total_changes exceeds zero, i.e. whether
any row matched the WHERE clause. -/
def cancel_scheduled_post (postId : Nat) (posts : List ScheduledPost) :
    List ScheduledPost × Bool :=
  (posts.map fun p =>
     if p.id == postId && p.status == "pending" then
       { p with status := "cancelled" }
     else p,
   decide (0 <
     (posts.filter fun p =>
       p.id == postId && p.status == "pending").length))

end NewsScheduler

/-- Python division, which raises ZeroDivisionError on a zero divisor,
modelled as a fallible operation on exact rationals. -/
def qdiv (a b : ℚ) : Option ℚ :=
  if b = 0 then none else some (a / b)

/-- Round a rational to the nearest integer, ties to the even integer, as
python float formatting does. -/
def roundHalfEven (q : ℚ) : Int :=
  let f := ⌊q⌋
  let rem := q - f
  if rem < 1 / 2 then f
  else if 1 / 2 < rem then f + 1
  else if Even f then f else f + 1

/-- Render a rational with one decimal place, modelling the python format
spec .1f with exact rational arithmetic in place of binary floats. -/
def formatFixed1 (q : ℚ) : String :=
  let tenths := roundHalfEven (q * 10)
  (if tenths < 0 then "-" else "") ++
    toString (tenths.natAbs / 10) ++ "." ++ toString (tenths.natAbs % 10)

namespace NewsScheduler

/-- scheduler_error.py lines 158-165, NewsScheduler._calculate_change: if
previous is zero, return +100 percent when current is positive and 0 percent
otherwise, without dividing; else compute
change = ((current - previous) / previous) * 100, prefix a plus sign when
change is positive, and render with one decimal place. The division is the
fallible qdiv, so the result is an Option. -/
def calculate_change (current previous : Int) : Option String :=
  if previous = 0 then
    some (if current > 0 then "+100%" else "0%")
  else
    match qdiv ((current : ℚ) - (previous : ℚ)) (previous : ℚ) with
    | none => none
    | some frac =>
        let change := frac * 100
        let sign := if change > 0 then "+" else ""
        some (sign ++ formatFixed1 change ++ "%")

end NewsScheduler

/-! ## Helper lemmas for the quota counter -/

/-- A first call with no stored row is allowed and inserts the row with both
counts 1 and both window starts at now. -/
theorem check_rate_limit_insert (t0 : Int) :
    RateLimiter.check_rate_limit t0 none = (true, some ⟨1, 1, t0, t0⟩) :=
  rfl

/-- A call within one hour of both window starts, with both counts k below
the hourly limit, is allowed and increments both counts, keeping the window
starts. -/
theorem check_rate_limit_step (t t0 : Int) (k : Nat) (hk : k < 10)
    (ht : t - t0 ≤ 3600) :
    RateLimiter.check_rate_limit t (some ⟨k, k, t0, t0⟩)
      = (true, some ⟨k + 1, k + 1, t0, t0⟩) := by
  have hk50 : k < 50 := by omega
  have hh : ¬ (t - t0 > 3600) := by omega
  have hd : ¬ (t - t0 > 86400) := by omega
  simp [RateLimiter.check_rate_limit, Database.check_rate_limit,
    Database.update_rate_limit, MAX_REQUESTS_PER_HOUR, MAX_REQUESTS_PER_DAY,
    hk, hk50, hh, hd]

/-- Once both stored counts equal the hourly limit, a call is denied and the
row is unchanged, whatever the current time. -/
theorem check_rate_limit_denied (t t0 : Int) :
    RateLimiter.check_rate_limit t (some ⟨10, 10, t0, t0⟩)
      = (false, some ⟨10, 10, t0, t0⟩) :=
  rfl

/-- Running the remaining calls of the end-to-end scenario: starting from
counts k with 11 - k calls left, all within one hour of the window start, the
first 10 - k calls are allowed and the last one is denied, ending with both
counts at 10. -/
theorem runCalls_saturates (t0 : Int) :
    ∀ (ts : List Int) (k : Nat), k ≤ 10 → ts.length = 11 - k →
      (∀ t ∈ ts, t - t0 ≤ 3600) →
      RateLimiter.runCalls ts (some ⟨k, k, t0, t0⟩)
        = (List.replicate (10 - k) true ++ [false], some ⟨10, 10, t0, t0⟩)
  | [], k, hk, hlen, _ => by
      simp at hlen
      omega
  | t :: ts, k, hk, hlen, hwin => by
      rcases Nat.lt_or_ge k 10 with hlt | hge
      · have hstep := check_rate_limit_step t t0 k hlt
          (hwin t (List.mem_cons_self t ts))
        have hts : ts.length = 11 - (k + 1) := by
          simp at hlen
          omega
        have ih := runCalls_saturates t0 ts (k + 1) (by omega) hts
          (fun u hu => hwin u (List.mem_cons_of_mem t hu))
        simp only [RateLimiter.runCalls, hstep, ih]
        have hrep : (10 - k) = (10 - (k + 1)) + 1 := by omega
        rw [hrep, List.replicate_succ]
        simp
      · have hk10 : k = 10 := by omega
        subst hk10
        have hnil : ts = [] := by
          simp only [List.length_cons] at hlen
          exact List.eq_nil_of_length_eq_zero (by omega)
        subst hnil
        simp [RateLimiter.runCalls, check_rate_limit_denied]

/-! ## Claim theorems for the quota counter -/

/-- C1: the code behavior at the failing input. The claim says a call more
than one hour after the stored hour window start, with the hourly count at
the limit and the daily limit not exhausted, is allowed again after a window
reset. The code instead denies before ever reaching the reset logic: at two
hours past the window start the call returns false and leaves the row
unchanged, so the actor stays locked out forever. -/
theorem lockout_persists_past_hour_boundary :
    RateLimiter.check_rate_limit 7200 (some ⟨10, 10, 0, 0⟩)
      = (false, some ⟨10, 10, 0, 0⟩) := by
  decide

/-- C3: with hourly limit 10 and daily limit 50, eleven sequential calls for
one actor all within one hour of the first call yield ten allowed results
followed by one denial, and after the denied eleventh call the stored row
still has hourly count 10 and daily count 10. -/
theorem quota_first_ten_allowed_eleventh_denied (t0 : Int) (rest : List Int)
    (hlen : rest.length = 10) (hwin : ∀ t ∈ rest, t - t0 ≤ 3600) :
    RateLimiter.runCalls (t0 :: rest) none
      = (List.replicate 10 true ++ [false], some ⟨10, 10, t0, t0⟩) := by
  have h1 := check_rate_limit_insert t0
  have h2 := runCalls_saturates t0 rest 1 (by omega) (by omega) hwin
  simp only [RateLimiter.runCalls, h1, h2]
  simp [List.replicate_succ]

/-- Witness for C3 at a concrete input: eleven calls all at time 0. -/
theorem quota_first_ten_allowed_eleventh_denied_witness :
    (List.replicate 10 (0 : Int)).length = 10 ∧
    RateLimiter.runCalls ((0 : Int) :: List.replicate 10 (0 : Int)) none
      = (List.replicate 10 true ++ [false], some ⟨10, 10, 0, 0⟩) :=
  ⟨by decide,
    quota_first_ten_allowed_eleventh_denied 0 (List.replicate 10 0)
      (by decide)
      (by
        intro t ht
        have := List.eq_of_mem_replicate ht
        omega)⟩

/-- C4, counterexample: for a stored row whose window starts lie at time 100
with counts 5, an update at time 0 (clock skew, now before the window start)
does not reset: the hourly count does not restart at 1 and the hour window
start is not moved to now. -/
theorem skewed_window_not_reset :
    (Database.update_rate_limit 0 (some ⟨5, 5, 100, 100⟩)).hourly_count ≠ 1 ∧
    (Database.update_rate_limit 0 (some ⟨5, 5, 100, 100⟩)).last_hour_reset
      ≠ 0 := by
  decide

/-- C4, amended: when now precedes both stored window starts, the negative
elapsed time never exceeds a window length, so no reset fires: both counts
keep accumulating into the skewed windows and both window starts are kept. -/
theorem skewed_window_accumulates (now : Int) (r : RateLimitRow)
    (hh : now < r.last_hour_reset) (hd : now < r.last_day_reset) :
    Database.update_rate_limit now (some r)
      = ⟨r.hourly_count + 1, r.daily_count + 1,
          r.last_hour_reset, r.last_day_reset⟩ := by
  have hh2 : ¬ (now - r.last_hour_reset > 3600) := by omega
  have hd2 : ¬ (now - r.last_day_reset > 86400) := by omega
  simp [Database.update_rate_limit, hh2, hd2]

/-- Witness for the amended C4 at the concrete skewed row. -/
theorem skewed_window_accumulates_witness :
    (0 : Int) < 100 ∧
    Database.update_rate_limit 0 (some ⟨5, 5, 100, 100⟩)
      = ⟨6, 6, 100, 100⟩ :=
  ⟨by decide, skewed_window_accumulates 0 ⟨5, 5, 100, 100⟩ (by decide)
    (by decide)⟩

/-- C8: when the persistence layer raises during the quota check, the check
fails open and returns allowed. -/
theorem rate_limit_fails_open (now : Int) (msg : String) :
    RateLimiter.check_rate_limit_exc now (Except.error msg) = true :=
  rfl

/-- C6, counterexample: an actor whose hourly window elapsed two hours ago
with the count at the limit is reported with zero remaining, not with the
full hourly allowance the claim promises after an elapsed-window check. -/
theorem status_stale_after_elapsed_window :
    (RateLimiter.get_user_limits 7200 (some ⟨10, 10, 0, 0⟩)).hourly_remaining
      = 0 ∧
    (RateLimiter.get_user_limits 7200 (some ⟨10, 10, 0, 0⟩)).hourly_remaining
      ≠ MAX_REQUESTS_PER_HOUR := by
  decide

/-- C6, amended: the status query is a pure read (the embedding returns only
the report, never a new row) and performs no elapsed-window check at all: the
remaining counts it reports do not depend on the current time. -/
theorem status_remaining_ignores_time (now now2 : Int)
    (row : Option RateLimitRow) :
    (RateLimiter.get_user_limits now row).hourly_remaining
      = (RateLimiter.get_user_limits now2 row).hourly_remaining ∧
    (RateLimiter.get_user_limits now row).daily_remaining
      = (RateLimiter.get_user_limits now2 row).daily_remaining := by
  cases row <;> exact ⟨rfl, rfl⟩

/-! ## Claim theorems for the job store and scheduler handlers -/

/-- C2, counterexample: a job already in the terminal status posted, with
posted_at 50 and message_id 1, is changed by a further mark-posted call: the
update matches on id alone, so the call is not a no-op on a non-pending
job. -/
theorem mark_posted_not_noop_on_terminal :
    NewsScheduler.mark_posted 200 2 1
        [⟨1, "x", 0, "posted", some 50, some 1⟩]
      ≠ [⟨1, "x", 0, "posted", some 50, some 1⟩] := by
  decide

/-- C2, amended: the posting update applies unconditionally by id, whatever
the current status: a second mark-posted call on the same id fully overwrites
the first (so the externalRef kept is the second call's, and the composite
equals the second call alone); every job with the id receives the new status,
posted_at and message_id, and jobs with other ids are untouched. -/
theorem mark_posted_overwrites (posts : List ScheduledPost) (postId : Nat)
    (t1 t2 : Int) (m1 m2 : Nat) :
    NewsScheduler.mark_posted t2 m2 postId
        (NewsScheduler.mark_posted t1 m1 postId posts)
      = NewsScheduler.mark_posted t2 m2 postId posts ∧
    (∀ p ∈ posts, p.id = postId →
      { p with status := "posted", posted_at := some t1,
               message_id := some m1 }
        ∈ NewsScheduler.mark_posted t1 m1 postId posts) ∧
    (∀ p ∈ posts, p.id ≠ postId →
      p ∈ NewsScheduler.mark_posted t1 m1 postId posts) := by
  refine ⟨?_, ?_, ?_⟩
  · simp only [NewsScheduler.mark_posted, List.map_map]
    apply List.map_congr_left
    intro p _
    obtain ⟨pid, pc, pst, ps, ppa, pmi⟩ := p
    by_cases h : pid = postId
    · simp [Function.comp, h]
    · simp [Function.comp, h]
  · intro p hp hid
    have hmem := List.mem_map_of_mem
      (fun q => if q.id == postId then
          { q with status := "posted", posted_at := some t1,
                   message_id := some m1 }
        else q) hp
    simpa [NewsScheduler.mark_posted, hid] using hmem
  · intro p hp hid
    have hmem := List.mem_map_of_mem
      (fun q => if q.id == postId then
          { q with status := "posted", posted_at := some t1,
                   message_id := some m1 }
        else q) hp
    simpa [NewsScheduler.mark_posted, hid] using hmem

/-- Witness for the amended C2 at a concrete one-job store. -/
theorem mark_posted_overwrites_witness :
    NewsScheduler.mark_posted 20 3 1
        (NewsScheduler.mark_posted 10 2 1
          [⟨1, "x", 0, "pending", none, none⟩])
      = NewsScheduler.mark_posted 20 3 1
          [⟨1, "x", 0, "pending", none, none⟩] ∧
    (∀ p ∈ [(⟨1, "x", 0, "pending", none, none⟩ : ScheduledPost)],
      p.id = 1 →
      { p with status := "posted", posted_at := some 10,
               message_id := some 2 }
        ∈ NewsScheduler.mark_posted 10 2 1
            [⟨1, "x", 0, "pending", none, none⟩]) ∧
    (∀ p ∈ [(⟨1, "x", 0, "pending", none, none⟩ : ScheduledPost)],
      p.id ≠ 1 →
      p ∈ NewsScheduler.mark_posted 10 2 1
            [⟨1, "x", 0, "pending", none, none⟩]) :=
  mark_posted_overwrites [⟨1, "x", 0, "pending", none, none⟩] 1 10 20 2 3

/-- C5: the due-posts query returns only pending jobs whose scheduled time is
at most now, in ascending scheduled-time order, and at most 5 of them. -/
theorem fetch_due_posts_spec (now : Int) (posts : List ScheduledPost) :
    (∀ p ∈ NewsScheduler.fetch_due_posts now posts,
        p.status = "pending" ∧ p.scheduled_time ≤ now) ∧
    List.Sorted scheduledLE (NewsScheduler.fetch_due_posts now posts) ∧
    (NewsScheduler.fetch_due_posts now posts).length ≤ 5 := by
  refine ⟨?_, ?_, ?_⟩
  · intro p hp
    simp only [NewsScheduler.fetch_due_posts] at hp
    have hp2 := List.Sublist.mem hp (List.take_sublist 5 _)
    have hp3 := (List.perm_insertionSort scheduledLE _).mem_iff.mp hp2
    have hp4 := (List.mem_filter.mp hp3).2
    simpa using hp4
  · exact List.Pairwise.sublist (List.take_sublist 5 _)
      (List.sorted_insertionSort scheduledLE _)
  · simp only [NewsScheduler.fetch_due_posts, List.length_take]
    omega

/-- A concrete four-job store used by the scheduler witnesses. -/
def demoPosts : List ScheduledPost :=
  [⟨1, "a", 90, "pending", none, none⟩,
   ⟨2, "b", 10, "pending", none, none⟩,
   ⟨3, "c", 50, "posted", none, none⟩,
   ⟨4, "d", 200, "pending", none, none⟩]

/-- Witness for C5 at the concrete store. -/
theorem fetch_due_posts_spec_witness :
    (∀ p ∈ NewsScheduler.fetch_due_posts 100 demoPosts,
        p.status = "pending" ∧ p.scheduled_time ≤ 100) ∧
    List.Sorted scheduledLE (NewsScheduler.fetch_due_posts 100 demoPosts) ∧
    (NewsScheduler.fetch_due_posts 100 demoPosts).length ≤ 5 :=
  fetch_due_posts_spec 100 demoPosts

/-- C7: cancelling reports success exactly when some stored job has the given
id and is pending; on failure the store is unchanged; a matching pending job
is transitioned to cancelled in the result, and any job that does not match
id-and-pending is carried over unchanged. -/
theorem cancel_scheduled_post_spec (postId : Nat)
    (posts : List ScheduledPost) :
    ((NewsScheduler.cancel_scheduled_post postId posts).2 = true ↔
      ∃ p ∈ posts, p.id = postId ∧ p.status = "pending") ∧
    ((NewsScheduler.cancel_scheduled_post postId posts).2 = false →
      (NewsScheduler.cancel_scheduled_post postId posts).1 = posts) ∧
    (∀ p ∈ posts, p.id = postId → p.status = "pending" →
      { p with status := "cancelled" }
        ∈ (NewsScheduler.cancel_scheduled_post postId posts).1) ∧
    (∀ p ∈ posts, p.id ≠ postId ∨ p.status ≠ "pending" →
      p ∈ (NewsScheduler.cancel_scheduled_post postId posts).1) := by
  refine ⟨?_, ?_, ?_, ?_⟩
  · simp [NewsScheduler.cancel_scheduled_post,
      List.length_pos_iff_exists_mem, List.mem_filter]
  · intro hfalse
    simp only [NewsScheduler.cancel_scheduled_post, decide_eq_false_iff_not,
      Nat.not_lt, Nat.le_zero, List.length_eq_zero] at hfalse
    have hnone := List.filter_eq_nil_iff.mp hfalse
    simp only [NewsScheduler.cancel_scheduled_post]
    have hid : ∀ p ∈ posts,
        (if p.id == postId && p.status == "pending" then
          { p with status := "cancelled" }
        else p) = id p := by
      intro p hp
      have := hnone p hp
      simp only [id]
      rw [if_neg]
      simpa using this
    rw [List.map_congr_left hid, List.map_id]
  · intro p hp hpid hpst
    have hmem := List.mem_map_of_mem
      (fun q => if q.id == postId && q.status == "pending" then
          { q with status := "cancelled" }
        else q) hp
    simpa [NewsScheduler.cancel_scheduled_post, hpid, hpst] using hmem
  · intro p hp hnot
    have hmem := List.mem_map_of_mem
      (fun q => if q.id == postId && q.status == "pending" then
          { q with status := "cancelled" }
        else q) hp
    have hcond : (p.id == postId && p.status == "pending") = false := by
      rcases hnot with h | h <;> simp [h]
    simpa [NewsScheduler.cancel_scheduled_post, hcond] using hmem

/-- Witness for C7 at the concrete store. -/
theorem cancel_scheduled_post_spec_witness :
    ((NewsScheduler.cancel_scheduled_post 1 demoPosts).2 = true ↔
      ∃ p ∈ demoPosts, p.id = 1 ∧ p.status = "pending") ∧
    ((NewsScheduler.cancel_scheduled_post 1 demoPosts).2 = false →
      (NewsScheduler.cancel_scheduled_post 1 demoPosts).1 = demoPosts) ∧
    (∀ p ∈ demoPosts, p.id = 1 → p.status = "pending" →
      { p with status := "cancelled" }
        ∈ (NewsScheduler.cancel_scheduled_post 1 demoPosts).1) ∧
    (∀ p ∈ demoPosts, p.id ≠ 1 ∨ p.status ≠ "pending" →
      p ∈ (NewsScheduler.cancel_scheduled_post 1 demoPosts).1) :=
  cancel_scheduled_post_spec 1 demoPosts

/-- C10: the percentage-change computation never divides by zero and is
total: its fallible embedding always returns a value, and on a zero previous
count it returns the fixed strings without evaluating the division. -/
theorem calculate_change_total (current previous : Int) :
    (NewsScheduler.calculate_change current previous).isSome = true ∧
    (previous = 0 →
      NewsScheduler.calculate_change current previous
        = some (if current > 0 then "+100%" else "0%")) := by
  constructor
  · by_cases h : previous = 0
    · simp [NewsScheduler.calculate_change, h]
    · have hq : ((previous : ℚ)) ≠ 0 := Int.cast_ne_zero.mpr h
      simp [NewsScheduler.calculate_change, h, qdiv, hq]
  · intro h
    simp [NewsScheduler.calculate_change, h]

/-- Witness for C10 at current 5, previous 0. -/
theorem calculate_change_total_witness :
    (NewsScheduler.calculate_change 5 0).isSome = true ∧
    NewsScheduler.calculate_change 5 0 = some "+100%" :=
  ⟨(calculate_change_total 5 0).1, by
    have h := (calculate_change_total 5 0).2 rfl
    simpa using h⟩
